import Mathlib

/-!
Formal model of the Track Similarity Graph / Discovery Engine of the
music_visualizer repository.  The definitions below are shallow embeddings of
`src/frontend/src/DiscoveryEngine.js` (graph construction, the bounded
length-biased shortest-path search `calculateShortestPath`, the similarity
calculator `calculateTrackSimilarity`, and `addPathToPlaylist`), of
`ConnectionManager.showSimilarTracks` from
`src/frontend/src/musicPlayer3D.legacy.js`, and of the flow-path builder
`createGravitationalPath` from `src/unnamed/part_002`.

Modelling conventions:
* JavaScript numbers are modelled as exact rationals inside the pathfinder
  (all of its constants are short decimal literals) and as real numbers in the
  similarity calculator and the flow-path builder, which use `Math.sqrt` and
  `Math.sin`; `Infinity` is modelled as `none` in an `Option` of the number
  type, with the JS comparison and addition spelled out (`jsLt`, `jsAdd`).
* A JS `Map` keyed by the catalog track ids is modelled as a total function
  together with the explicit id list used for iteration (JS `Map` iteration
  order is insertion order, which is the track-list order).  `Map.get` on a
  missing key yields `undefined`; for the `previous` map, whose values can be
  a track id, `null`, or `undefined`, the value type `JVal` makes the three
  cases explicit.
* The `while` loops are modelled with explicit fuel.  A result of `none`
  means the fuel was exhausted, so `∀ fuel, run fuel = none` states that the
  original loop never terminates, while a `some` result for the chosen fuel
  is the value the JS code returns.
-/

namespace MusicViz

/-- Emotional coordinates of a track (`track.coordinates` in the source). -/
structure EmotionalCoords where
  valence : ℝ
  energy : ℝ
  complexity : ℝ
  tension : ℝ

/-- Sonic DNA of a track (`track.sonic_dna`); either gene array may be absent,
in which case the source substitutes `[]` via `|| []`. -/
structure SonicDNA where
  harmonic_genes : Option (List ℝ) := none
  rhythmic_genes : Option (List ℝ) := none

/-- Track record.  Only the fields the embedded functions read are kept.
Ids are assumed to be nonempty strings, so the JS falsiness chain
`track.track_id || track.uuid || track.id` is the `Option` fallback `tid`. -/
structure Track where
  track_id : Option String := none
  uuid : Option String := none
  id : String := ""
  coordinates : Option EmotionalCoords := none
  sonic_dna : Option SonicDNA := none

/-- Resolution `track.track_id || track.uuid || track.id` used throughout
`DiscoveryEngine.js`. -/
def tid (t : Track) : String :=
  t.track_id.getD (t.uuid.getD t.id)

/-- Connection record (`this.connections` entries): endpoints plus the two
optional numeric fields consulted for the weight. -/
structure Conn where
  source : String
  target : String
  weight : Option ℚ := none
  similarity : Option ℚ := none

/-- JS `a || b` for an optional numeric `a`: falls through to `b` when `a` is
absent and also when `a` is `0`, because `0` is falsy. -/
def jsOrQ (v : Option ℚ) (d : ℚ) : ℚ :=
  match v with
  | none => d
  | some x => if x = 0 then d else x

/-- Weight resolution `connection.weight || connection.similarity || 0.5`
(lines 119 and 123 of `DiscoveryEngine.js`); `0.5` is written `1/2`. -/
def resolveWeight (c : Conn) : ℚ :=
  jsOrQ c.weight (jsOrQ c.similarity (1/2))

/-- JS `Math.abs` on a rational. -/
def qabs (x : ℚ) : ℚ := if x < 0 then -x else x

/-- Pointwise update of a map modelled as a total function. -/
def updateFn {β : Type} (g : String → β) (k : String) (v : β) : String → β :=
  fun i => if i = k then v else g i

/-- Insertion of one connection into the adjacency structure (lines 115–126):
a connection whose two endpoints are catalog ids is pushed into both endpoint
lists with the resolved weight; other connections are dropped. -/
def graphStep (ids : List String) (g : String → List (String × ℚ)) (c : Conn) :
    String → List (String × ℚ) :=
  if c.source ∈ ids ∧ c.target ∈ ids then
    let w := resolveWeight c
    let g1 := updateFn g c.source (g c.source ++ [(c.target, w)])
    updateFn g1 c.target (g1 c.target ++ [(c.source, w)])
  else g

/-- Adjacency structure built at the top of `calculateShortestPath`
(lines 109–126): every catalog id starts with an empty neighbor list, and the
connections are folded in with `graphStep`. -/
def buildGraph (ids : List String) (conns : List Conn) : String → List (String × ℚ) :=
  conns.foldl (graphStep ids) (fun _ => [])

/-- Value read out of the JS `previous` map: a stored track id, the stored
`null`, or `undefined` (the result of `Map.get` on a missing key). -/
inductive JVal where
  | str (s : String)
  | null
  | undef
deriving DecidableEq

/-- JS number possibly `Infinity`: `none` is `Infinity`, `some q` a finite
value.  `jsLt` is the strict `<` of JS on such numbers. -/
def jsLt : Option ℚ → Option ℚ → Bool
  | none, _ => false
  | some _, none => true
  | some a, some b => decide (a < b)

/-- Finite increment on a JS number: `Infinity + q = Infinity`. -/
def jsAdd : Option ℚ → ℚ → Option ℚ
  | none, _ => none
  | some a, b => some (a + b)

/-- The dead-branch check `pathLengths.get(current) >= maxPathLength`
(line 158); `Infinity >= 25` is true in JS. -/
def hopsGe25 : Option ℕ → Bool
  | none => true
  | some h => decide (25 ≤ h)

/-- Mutable state of the search loop of `calculateShortestPath`:
`distances`, `previous`, `pathLengths` and `visited`.  `none` in `dist` and
`hops` is the JS `Infinity`. -/
structure DState where
  dist : String → Option ℚ
  prev : String → JVal
  hops : String → Option ℕ
  visited : List String

/-- Initialization (lines 128–138): distance `0` for the start id and
`Infinity` elsewhere, `previous` set to `null` exactly at the catalog keys
(`Map.get` elsewhere returns `undefined`), path length `0`/`Infinity`. -/
def initState (ids : List String) (startId : String) : DState where
  dist := fun i => if i = startId then some 0 else none
  prev := fun i => if i ∈ ids then JVal.null else JVal.undef
  hops := fun i => if i = startId then some 0 else none
  visited := []

/-- One candidate of the selection scan (lines 147–152): an unvisited id whose
distance is strictly below the best so far replaces it. -/
def selStep (dist : String → Option ℚ) (visited : List String)
    (acc : Option String × Option ℚ) (i : String) : Option String × Option ℚ :=
  if i ∉ visited ∧ jsLt (dist i) acc.2 then (some i, dist i) else acc

/-- Selection scan (lines 144–152): iterate the `distances` map in insertion
order, keeping the first unvisited id whose distance is strictly below the
best so far (initially `Infinity`, so ids at `Infinity` are never picked). -/
def selectMin (ids : List String) (dist : String → Option ℚ) (visited : List String) :
    Option String × Option ℚ :=
  ids.foldl (selStep dist visited) (none, none)

/-- Relaxation of all neighbors of `u` (lines 165–195).  The candidate cost is
`dist u + (1 - w) + |newHops - 10| * 0.5 + overshoot * 0.3` (the constants
`0.5`, `0.3` are written `1/2`, `3/10`); a neighbor is skipped when already
visited or when `newHops` would exceed `25`.  When `hops u = Infinity` the JS
`newPathLength` is `Infinity > 25`, which is the same skip.  `relaxStep` is
the body of the `neighbors.forEach` of lines 166–195. -/
def relaxStep (u : String) (st' : DState) (p : String × ℚ) : DState :=
  if p.1 ∈ st'.visited then st'
  else
    match st'.hops u with
    | none => st'
    | some n =>
      let np := n + 1
      if 25 < np then st'
      else
        let npq : ℚ := (np : ℕ)
        let base := 1 - p.2
        let lengthPenalty := qabs (npq - 10) * (1/2)
        let longPathPenalty := if 10 < npq then (npq - 10) * (3/10) else 0
        let cand := jsAdd (st'.dist u) (base + lengthPenalty + longPathPenalty)
        if jsLt cand (st'.dist p.1) then
          { dist := updateFn st'.dist p.1 cand
            prev := updateFn st'.prev p.1 (JVal.str u)
            hops := updateFn st'.hops p.1 (some np)
            visited := st'.visited }
        else st'

def relaxAll (u : String) (nbrs : List (String × ℚ)) (st : DState) : DState :=
  nbrs.foldl (relaxStep u) st

/-- Main `while (true)` loop of `calculateShortestPath` (lines 143–196),
with explicit fuel.  A `break` returns the current state; an exhausted fuel
returns `none`. -/
def dijkstraLoop (ids : List String) (graph : String → List (String × ℚ)) (endId : String) :
    ℕ → DState → Option DState
  | 0, _ => none
  | f + 1, st =>
    match selectMin ids st.dist st.visited with
    | (none, _) => some st
    | (some u, sd) =>
      if sd = none then some st
      else if u = endId then some st
      else if hopsGe25 (st.hops u) then
        dijkstraLoop ids graph endId f { st with visited := st.visited ++ [u] }
      else
        dijkstraLoop ids graph endId f
          (relaxAll u (graph u) { st with visited := st.visited ++ [u] })

/-- Path reconstruction loop (lines 198–204): `while (current !== null)`
unshift `current`, then follow `previous`.  When `current` is `undefined`
(an id that is not a key of `previous`), the JS loop keeps unshifting
`undefined` forever — that branch can never reach `null`, so the ids
accumulated there are unobservable and the fuel always runs out. -/
def reconstructLoop (prev : String → JVal) : ℕ → JVal → List String → Option (List String)
  | 0, _, _ => none
  | _ + 1, JVal.null, acc => some acc
  | f + 1, JVal.str i, acc => reconstructLoop prev f (prev i) (i :: acc)
  | f + 1, JVal.undef, acc => reconstructLoop prev f JVal.undef acc

/-- Final validation (lines 206–214): return the path only when it has more
than one node, starts at the requested start id, and has at most
`maxPathLength + 1 = 26` nodes. -/
def finalize (startId : String) (p : List String) : Option (List String) :=
  if 1 < p.length ∧ p.head? = some startId ∧ p.length ≤ 25 + 1 then some p else none

/-- Whole of `calculateShortestPath`, with explicit fuel for its two loops.
The outer `Option` is termination (`none` = some loop never finished); the
inner `Option (List String)` is the JS return value (`null` or a path). -/
def calcWithFuel (f1 f2 : ℕ) (tracks : List Track) (conns : List Conn)
    (startId endId : String) : Option (Option (List String)) :=
  let ids := tracks.map tid
  let graph := buildGraph ids conns
  match dijkstraLoop ids graph endId f1 (initState ids startId) with
  | none => none
  | some st =>
    match reconstructLoop st.prev f2 (JVal.str endId) [] with
    | none => none
    | some path => some (finalize startId path)

/-- Top-level `calculateShortestPath`, run with enough fuel for both loops whenever they
terminate at all: the search loop marks a fresh id visited on every
non-breaking iteration, and an acyclic `previous` chain has at most
`ids.length + 1` steps. -/
def calculateShortestPath (tracks : List Track) (conns : List Conn)
    (startId endId : String) : Option (Option (List String)) :=
  calcWithFuel (tracks.length + 1) (tracks.length + 2) tracks conns startId endId

/-- Four-track fixture of the specification: catalog `{A,B,C,D}`. -/
def trackA : Track := { id := "A" }

def trackB : Track := { id := "B" }

def trackC : Track := { id := "C" }

def trackD : Track := { id := "D" }

def tracksABCD : List Track := [trackA, trackB, trackC, trackD]

/-- Edges `(A,B,0.9)`, `(B,C,0.8)`, `(A,D,0.1)` of the fixture. -/
def connsABCD : List Conn :=
  [ { source := "A", target := "B", weight := some (9/10) }
  , { source := "B", target := "C", weight := some (8/10) }
  , { source := "A", target := "D", weight := some (1/10) } ]

/-- Similarity context rebuilt by `ConnectionManager.showSimilarTracks`
(`musicPlayer3D.legacy.js`, lines 646–696): the JS `Set` is modelled as a
duplicate-free list in insertion order; `setAdd` is `Set.add`. -/
def setAdd (l : List String) (x : String) : List String :=
  if x ∈ l then l else l ++ [x]

/-- Contents of `similarityContext` after `showSimilarTracks(trackId)`:
the context is cleared, the clicked id is added, and then for every raw
connection touching `trackId` whose two endpoints have spheres in `trackMap`
the opposite endpoint is added.  The geometry side effects (lines and
materials) are external rendering and are not modelled. -/
def showSimilarTracksContext (connections : List Conn) (trackMap : List String)
    (trackId : String) : List String :=
  connections.foldl
    (fun ctx c =>
      if c.source = trackId ∨ c.target = trackId then
        if c.source ∈ trackMap ∧ c.target ∈ trackMap then
          setAdd ctx (if c.source = trackId then c.target else c.source)
        else ctx
      else ctx)
    [trackId]

/-- Single-track fixture used for the unknown-end-id analysis. -/
def connAB : List Conn := [ { source := "A", target := "B", weight := some (9/10) } ]


/-! ### Similarity calculator (`DiscoveryEngine.js`, lines 392–450) -/

noncomputable section

/-- The three running sums of the `for` loop of `calculateVectorSimilarity`
(lines 426–430): dot product and the two squared norms.  The accumulation
order differs from the JS loop only by commutativity of real addition. -/
def simSums : List ℝ → List ℝ → ℝ × ℝ × ℝ
  | a :: v1, b :: v2 =>
    let r := simSums v1 v2
    (r.1 + a * b, r.2.1 + a * a, r.2.2 + b * b)
  | _, _ => (0, 0, 0)

/-- Squared norm of a vector: the `norm1` of the loop run on `(v, v)`. -/
def normSq (v : List ℝ) : ℝ := (simSums v v).2.1

/-- Cosine similarity `calculateVectorSimilarity` (lines 419–434): `0` on a
length mismatch and on a zero norm, otherwise
`dot / (sqrt norm1 * sqrt norm2)`.  (The `!vec1 || !vec2` null guard cannot
fire here: the caller always passes arrays, absent gene arrays having been
replaced by `[]` via `|| []`.) -/
def calculateVectorSimilarity (v1 v2 : List ℝ) : ℝ :=
  if v1.length ≠ v2.length then 0
  else
    let r := simSums v1 v2
    if r.2.1 = 0 ∨ r.2.2 = 0 then 0
    else r.1 / (Real.sqrt r.2.1 * Real.sqrt r.2.2)

/-- Emotional similarity (lines 436–450) on the two coordinate records:
`max(0, 1 - d/2)` with `d` the Euclidean distance of the four coordinates.
(The early `return 0` for absent coordinates is unreachable: the only caller
checks both are present.) -/
def calculateEmotionalSimilarity (c1 c2 : EmotionalCoords) : ℝ :=
  max 0 (1 -
    Real.sqrt ((c1.valence - c2.valence) ^ 2 + (c1.energy - c2.energy) ^ 2 +
      (c1.complexity - c2.complexity) ^ 2 + (c1.tension - c2.tension) ^ 2) / 2)

/-- Blend `calculateTrackSimilarity` (lines 392–417): the emotional factor
(weight 0.4) and the sonic factor (0.3 harmonic + 0.3 rhythmic) are each
accumulated only when both tracks carry the data, and the sum is divided by
the accumulated factor weight; `0.5` when no factor applies. -/
def calculateTrackSimilarity (t1 t2 : Track) : ℝ :=
  let p1 :=
    match t1.coordinates, t2.coordinates with
    | some c1, some c2 => (calculateEmotionalSimilarity c1 c2 * 0.4, (0.4 : ℝ))
    | _, _ => ((0 : ℝ), (0 : ℝ))
  let p2 :=
    match t1.sonic_dna, t2.sonic_dna with
    | some d1, some d2 =>
      (calculateVectorSimilarity (d1.harmonic_genes.getD []) (d2.harmonic_genes.getD []) * 0.3 +
          calculateVectorSimilarity (d1.rhythmic_genes.getD []) (d2.rhythmic_genes.getD []) * 0.3,
        (0.6 : ℝ))
    | _, _ => ((0 : ℝ), (0 : ℝ))
  if 0 < p1.2 + p2.2 then (p1.1 + p2.1) / (p1.2 + p2.2) else 0.5

/-! ### Flow path builder (`src/unnamed/part_002`, lines 2107–2136) -/

/-- Vector in 3D (`THREE.Vector3`), components only. -/
structure Vec3 where
  x : ℝ
  y : ℝ
  z : ℝ

/-- Linear interpolation `new THREE.Vector3().lerpVectors(a, b, t)`: `a + (b - a) * t`
componentwise. -/
def lerpVectors (a b : Vec3) (t : ℝ) : Vec3 where
  x := a.x + (b.x - a.x) * t
  y := a.y + (b.y - a.y) * t
  z := a.z + (b.z - a.z) * t

/-- Entry of `trackPositions`; only its `position` is read (line 2112). -/
structure TrackPos where
  position : Vec3

/-- One emitted point of `createGravitationalPath` (lines 2124–2129). -/
structure PathPoint where
  position : Vec3
  trackIndex : ℝ
  flow : ℝ
  segment : ℕ

/-- Segment count `const segments = 20` (line 2110). -/
def segments : ℕ := 20

/-- Inner loop of `createGravitationalPath` (lines 2117–2130) for the segment
from `startPos` to `endPos` with index `i`: `segments + 1` points at
`t = j / segments`, linearly interpolated, with the vertical lift
`Math.sin(t * Math.PI) * 1.0` added to `y`. -/
def segPoints (i : ℕ) (startPos endPos : Vec3) : List PathPoint :=
  (List.range (segments + 1)).map fun (j : ℕ) =>
    let t : ℝ := (j : ℝ) / (segments : ℝ)
    let point := lerpVectors startPos endPos t
    { position := { point with y := point.y + Real.sin (t * Real.pi) * 1.0 }
      trackIndex := (i : ℝ) + t
      flow := t
      segment := i }

/-- Outer loop (lines 2114–2131): one block of interpolated points per
consecutive pair of positions, concatenated in order. -/
def segsFrom : ℕ → List Vec3 → List PathPoint
  | i, p0 :: p1 :: rest => segPoints i p0 p1 ++ segsFrom (i + 1) (p1 :: rest)
  | _, _ => []

/-- Whole `createGravitationalPath` (lines 2107–2136).  The surrounding `try/catch`
cannot fire in this pure model, so the `[]` fallback is dropped. -/
def createGravitationalPath (trackPositions : List TrackPos) : List PathPoint :=
  segsFrom 0 (trackPositions.map TrackPos.position)

end


/-- Fixture for the similarity counterexamples: opposite unit gene vectors. -/
noncomputable def tNegL : Track :=
  { id := "L", sonic_dna := some { harmonic_genes := some [1], rhythmic_genes := some [1] } }

/-- Fixture: the track opposite to `tNegL`. -/
noncomputable def tNegR : Track :=
  { id := "R", sonic_dna := some { harmonic_genes := some [-1], rhythmic_genes := some [-1] } }

/-- Fixture: zero-norm gene vectors with emotional coordinates present. -/
noncomputable def tZero : Track :=
  { id := "T0", coordinates := some ⟨0, 0, 0, 0⟩,
    sonic_dna := some { harmonic_genes := some [0], rhythmic_genes := some [0] } }

/-- Fixture: unit gene vectors with emotional coordinates present. -/
noncomputable def tOne : Track :=
  { id := "T1", coordinates := some ⟨0, 0, 0, 0⟩,
    sonic_dna := some { harmonic_genes := some [1], rhythmic_genes := some [1] } }

/-! ### Playlist update (`DiscoveryEngine.js`, `addPathToPlaylist`,
lines 276–333).  Rendering side effects (bloom, sphere scale) and the
persistence/UI calls at the end are external and not modelled; playback is
recorded as the index passed to `playTrackByIndex`. -/

/-- JS `Array.findIndex`: index of the first match, `-1` when none. -/
def jsFindIndex (q : Track → Bool) (l : List Track) : ℤ :=
  match l.findIdx? q with
  | none => -1
  | some n => (n : ℤ)

/-- Playlist-owner state touched by `addPathToPlaylist`:
`selectedTracks` and `currentTrackIndex` (`-1` = nothing selected). -/
structure PlayerState where
  selectedTracks : List Track
  currentTrackIndex : ℤ

/-- First phase of `addPathToPlaylist` (lines 277–298): append every path
track that exists in the catalog and is not yet in the playlist, counting the
additions. -/
def addPathTracks (tracks : List Track) (path : List String) (selected : List Track) :
    List Track × ℕ :=
  path.foldl
    (fun acc trackId =>
      match tracks.find? (fun t => tid t == trackId) with
      | none => acc
      | some track =>
        if (acc.1.findIdx? (fun t => tid t == trackId)).isSome then acc
        else (acc.1 ++ [track], acc.2 + 1))
    (selected, 0)

/-- Index `selectedTracks.findIndex` of `path[0]` (lines 301–304 and 313–315);
`path[0]` of an empty path is `undefined`, which matches no id. -/
def firstPathIndex (path : List String) (sel : List Track) : ℤ :=
  match path.head? with
  | none => -1
  | some pid => jsFindIndex (fun t => tid t == pid) sel

/-- Second phase of `addPathToPlaylist` (lines 300–324): selection switch and
playback.  Returns the new state and the index passed to `playTrackByIndex`
(`none` when nothing is played). -/
def addPathToPlaylist (tracks : List Track) (path : List String) (st : PlayerState) :
    PlayerState × Option ℤ :=
  let added := addPathTracks tracks path st.selectedTracks
  if st.currentTrackIndex = -1 ∧ 0 < added.1.length then
    let fi := firstPathIndex path added.1
    let ni := if fi ≠ -1 then fi else 0
    ({ selectedTracks := added.1, currentTrackIndex := ni }, some ni)
  else if 0 < added.2 then
    let fi := firstPathIndex path added.1
    if fi ≠ -1 ∧ fi ≠ st.currentTrackIndex then
      ({ selectedTracks := added.1, currentTrackIndex := fi }, some fi)
    else ({ selectedTracks := added.1, currentTrackIndex := st.currentTrackIndex }, none)
  else ({ selectedTracks := added.1, currentTrackIndex := st.currentTrackIndex }, none)

/-! ### Computation lemmas for the JS-number helpers -/

@[simp] theorem jsLt_none (b : Option ℚ) : jsLt none b = false := rfl

@[simp] theorem jsLt_some_none (a : ℚ) : jsLt (some a) none = true := rfl

@[simp] theorem jsLt_some_some (a b : ℚ) : jsLt (some a) (some b) = decide (a < b) := rfl

@[simp] theorem jsAdd_none (b : ℚ) : jsAdd none b = none := rfl

@[simp] theorem jsAdd_some (a b : ℚ) : jsAdd (some a) b = some (a + b) := rfl

@[simp] theorem hopsGe25_none : hopsGe25 none = true := rfl

@[simp] theorem hopsGe25_some (h : ℕ) : hopsGe25 (some h) = decide (25 ≤ h) := rfl

@[simp] theorem qsome_ne_none (a : ℚ) : ((some a : Option ℚ) = none) = False := by simp

@[simp] theorem initState_visited (ids : List String) (s : String) :
    (initState ids s).visited = [] := rfl

/-! ### Equality facts for the concrete track ids of the fixtures -/

@[simp] theorem sAB : (("A" : String) = "B") = False := by simp

@[simp] theorem sAC : (("A" : String) = "C") = False := by simp

@[simp] theorem sAD : (("A" : String) = "D") = False := by simp

@[simp] theorem sAZ : (("A" : String) = "Z") = False := by simp

@[simp] theorem sBA : (("B" : String) = "A") = False := by simp

@[simp] theorem sBC : (("B" : String) = "C") = False := by simp

@[simp] theorem sBD : (("B" : String) = "D") = False := by simp

@[simp] theorem sBZ : (("B" : String) = "Z") = False := by simp

@[simp] theorem sCA : (("C" : String) = "A") = False := by simp

@[simp] theorem sCB : (("C" : String) = "B") = False := by simp

@[simp] theorem sCD : (("C" : String) = "D") = False := by simp

@[simp] theorem sCZ : (("C" : String) = "Z") = False := by simp

@[simp] theorem sDA : (("D" : String) = "A") = False := by simp

@[simp] theorem sDB : (("D" : String) = "B") = False := by simp

@[simp] theorem sDC : (("D" : String) = "C") = False := by simp

@[simp] theorem sDZ : (("D" : String) = "Z") = False := by simp

@[simp] theorem sZA : (("Z" : String) = "A") = False := by simp

@[simp] theorem sZB : (("Z" : String) = "B") = False := by simp

@[simp] theorem sZC : (("Z" : String) = "C") = False := by simp

@[simp] theorem sZD : (("Z" : String) = "D") = False := by simp

/-! ### Pathfinding claims -/

/-- C2: on the four-track fixture with edges `(A,B,0.9)`, `(B,C,0.8)`,
`(A,D,0.1)` and the built-in `targetPathLength = 10`, `maxPathLength = 25`,
`calculateShortestPath("A","C")` (relaxing with
`dist + (1-w) + |newHops-10|*0.5 + max(0,newHops-10)*0.3`) terminates and
returns exactly the path `["A","B","C"]`. -/
theorem c2_findPath_fixture :
    calculateShortestPath tracksABCD connsABCD "A" "C" = some (some ["A", "B", "C"]) := by
  norm_num [calculateShortestPath, calcWithFuel, dijkstraLoop,
    selectMin, selStep, relaxAll, relaxStep, initState, buildGraph, graphStep,
    reconstructLoop, finalize, updateFn, resolveWeight,
    jsOrQ, qabs, tid, tracksABCD, connsABCD,
    trackA, trackB, trackC, trackD, List.foldl]

/-- C7: whenever `calculateShortestPath` terminates with a path (rather than
`null`), that path has at most `maxPathLength + 1 = 26` nodes — the final
validation of lines 206–214 checks exactly this. -/
theorem c7_path_length_bound (tracks : List Track) (conns : List Conn)
    (startId endId : String) (p : List String)
    (h : calculateShortestPath tracks conns startId endId = some (some p)) :
    p.length ≤ 26 := by
  simp only [calculateShortestPath, calcWithFuel] at h
  split at h
  · exact absurd h (by simp)
  · split at h
    · exact absurd h (by simp)
    · simp only [Option.some.injEq] at h
      rw [finalize] at h
      split at h
      · rename_i hc
        cases h
        exact hc.2.2
      · exact absurd h (by simp)

/-- C7 witness: on the four-track fixture the returned path `["A","B","C"]`
indeed has at most 26 nodes. -/
theorem c7_path_length_bound_witness : (["A", "B", "C"] : List String).length ≤ 26 :=
  c7_path_length_bound tracksABCD connsABCD "A" "C" ["A", "B", "C"]
    (by norm_num [calculateShortestPath, calcWithFuel, dijkstraLoop,
      selectMin, selStep, relaxAll, relaxStep, initState, buildGraph, graphStep,
      reconstructLoop, finalize, updateFn, resolveWeight,
      jsOrQ, qabs, tid, tracksABCD, connsABCD,
      trackA, trackB, trackC, trackD, List.foldl])

/-- Helper: once the selection scan holds `(some s, some 0)` and every
distance is `some 0` (at `s`) or `Infinity`, later ids never replace it. -/
theorem selectMin_stay (s : String) (ids : List String) :
    List.foldl (selStep (initState ids s).dist []) (some s, some (0 : ℚ)) ids =
      (some s, some 0) := by
  have hstep : ∀ t, selStep (initState ids s).dist [] (some s, some (0 : ℚ)) t =
      (some s, some (0 : ℚ)) := by
    intro t
    rcases eq_or_ne t s with h | h <;>
      simp [selStep, initState, h, lt_self_iff_false]
  have main : ∀ l, List.foldl (selStep (initState ids s).dist [])
      (some s, some (0 : ℚ)) l = (some s, some 0) := by
    intro l
    induction l with
    | nil => rfl
    | cons t rest ih => rw [List.foldl, hstep t]; exact ih
  exact main ids

/-- Helper: with the initial distances of `startId = s`, the selection scan
returns `s` whenever `s` is among the iterated ids. -/
theorem selectMin_init (s : String) (ids : List String) (hs : s ∈ ids) :
    selectMin ids (initState ids s).dist [] = (some s, some 0) := by
  rw [selectMin]
  have hgo : ∀ l, s ∈ l → List.foldl (selStep (initState ids s).dist [])
      (none, none) l = (some s, some 0) := by
    intro l hl
    induction l with
    | nil => cases hl
    | cons t rest ih =>
      rcases eq_or_ne t s with h | h
      · subst h
        have hfirst : selStep (initState ids t).dist [] (none, none) t =
            (some t, some (0 : ℚ)) := by
          simp [selStep, initState]
        rw [List.foldl, hfirst]
        have := selectMin_stay t ids
        -- re-run the stay argument on `rest`
        have hstep : ∀ x, selStep (initState ids t).dist [] (some t, some (0 : ℚ)) x =
            (some t, some (0 : ℚ)) := by
          intro x
          rcases eq_or_ne x t with h' | h' <;>
            simp [selStep, initState, h', lt_self_iff_false]
        have main : ∀ l2, List.foldl (selStep (initState ids t).dist [])
            (some t, some (0 : ℚ)) l2 = (some t, some 0) := by
          intro l2
          induction l2 with
          | nil => rfl
          | cons y ys ih2 => rw [List.foldl, hstep y]; exact ih2
        exact main rest
      · have hs' : s ∈ rest := by
          rcases List.mem_cons.mp hl with h' | h'
          · exact absurd h'.symm h
          · exact h'
        have hskip : selStep (initState ids s).dist [] (none, none) t = (none, none) := by
          simp [selStep, initState, h]
        rw [List.foldl, hskip]
        exact ih hs'
  exact hgo ids hs

/-- C5 (amended): for a start id present in the catalog, `findPath(s, s)`
terminates and returns `null`, not the single-node path `[s]` — the final
validation requires `path.length > 1`. -/
theorem c5_self_path_returns_none (tracks : List Track) (conns : List Conn)
    (s : String) (hs : s ∈ tracks.map tid) :
    calculateShortestPath tracks conns s s = some none := by
  simp only [calculateShortestPath, calcWithFuel]
  have h1 : dijkstraLoop (tracks.map tid) (buildGraph (tracks.map tid) conns) s
      (tracks.length + 1) (initState (tracks.map tid) s) =
      some (initState (tracks.map tid) s) := by
    rw [dijkstraLoop]
    rw [show (initState (tracks.map tid) s).visited = [] from rfl] at *
    rw [selectMin_init s (tracks.map tid) hs]
    simp
  rw [h1]
  have h2 : (initState (tracks.map tid) s).prev s = JVal.null := by
    have hr : (initState (tracks.map tid) s).prev s =
        if s ∈ tracks.map tid then JVal.null else JVal.undef := rfl
    rw [hr, if_pos hs]
  have h3 : reconstructLoop (initState (tracks.map tid) s).prev (tracks.length + 2)
      (JVal.str s) [] = some [s] := by
    rw [show tracks.length + 2 = (tracks.length + 1) + 1 from rfl]
    rw [reconstructLoop, h2, reconstructLoop]
  simp only [h3]
  simp [finalize]

/-- C5 witness for the amended statement, at the four-track fixture. -/
theorem c5_self_path_returns_none_witness :
    calculateShortestPath tracksABCD connsABCD "A" "A" = some none :=
  c5_self_path_returns_none tracksABCD connsABCD "A" (by decide)

/-- C5 counterexample to the claim as stated: on the fixture,
`findPath("A","A")` is `null` (`some none`), not the single-node path
`["A"]`. -/
theorem c5_self_path_counterexample :
    calculateShortestPath tracksABCD connsABCD "A" "A" = some none ∧
      calculateShortestPath tracksABCD connsABCD "A" "A" ≠ some (some ["A"]) := by
  have h : calculateShortestPath tracksABCD connsABCD "A" "A" = some none := by
    norm_num [calculateShortestPath, calcWithFuel, dijkstraLoop,
      selectMin, selStep, relaxAll, relaxStep, initState, buildGraph, graphStep,
      reconstructLoop, finalize, updateFn, resolveWeight,
      jsOrQ, qabs, tid, tracksABCD, connsABCD,
      trackA, trackB, trackC, trackD, List.foldl]
  exact ⟨h, by rw [h]; simp⟩

/-- Helper: `graphStep` only ever appends to neighbor lists. -/
theorem graphStep_mono (ids : List String) (g : String → List (String × ℚ))
    (c : Conn) (i : String) (x : String × ℚ) (hx : x ∈ g i) :
    x ∈ graphStep ids g c i := by
  unfold graphStep
  split
  · by_cases h0 : c.source = c.target <;>
      by_cases h1 : i = c.target <;> by_cases h2 : i = c.source <;>
      simp_all [updateFn, List.mem_append]
  · exact hx

/-- Helper: folding more connections into the graph keeps every neighbor. -/
theorem buildGraph_mono (ids : List String) (conns : List Conn) :
    ∀ (g : String → List (String × ℚ)) (i : String) (x : String × ℚ),
      x ∈ g i → x ∈ conns.foldl (graphStep ids) g i := by
  induction conns with
  | nil => intro g i x hx; exact hx
  | cons c rest ih =>
    intro g i x hx
    exact ih _ _ _ (graphStep_mono ids g c i x hx)

/-- Helper: a connection with both endpoints in the catalog puts the resolved
weight into both endpoint lists at its own `graphStep`. -/
theorem graphStep_self (ids : List String) (g : String → List (String × ℚ))
    (c : Conn) (hs : c.source ∈ ids) (ht : c.target ∈ ids) :
    (c.target, resolveWeight c) ∈ graphStep ids g c c.source ∧
      (c.source, resolveWeight c) ∈ graphStep ids g c c.target := by
  unfold graphStep
  rw [if_pos ⟨hs, ht⟩]
  constructor
  · by_cases h : c.source = c.target <;>
      simp [updateFn, h, List.mem_append]
  · simp [updateFn, List.mem_append]

/-- Helper: generalized insertion over the fold, for any initial adjacency. -/
theorem buildGraph_insert_aux (ids : List String) (c : Conn)
    (hs : c.source ∈ ids) (ht : c.target ∈ ids) :
    ∀ (conns : List Conn) (g : String → List (String × ℚ)), c ∈ conns →
      (c.target, resolveWeight c) ∈ conns.foldl (graphStep ids) g c.source ∧
        (c.source, resolveWeight c) ∈ conns.foldl (graphStep ids) g c.target := by
  intro conns
  induction conns with
  | nil => intro g hc; cases hc
  | cons d rest ih =>
    intro g hc
    rcases List.mem_cons.mp hc with h | h
    · subst h
      have hself := graphStep_self ids g c hs ht
      exact ⟨buildGraph_mono ids rest _ _ _ hself.1,
        buildGraph_mono ids rest _ _ _ hself.2⟩
    · exact ih (graphStep ids g d) h

/-- C6 (amended): every connection whose two endpoint ids are in the catalog
is inserted, in both directions, with the resolved weight
`weight || similarity || 0.5` — where, `0` being falsy in JS, a present but
zero `weight` also falls through to `similarity` (and then to `0.5`). -/
theorem c6_edge_insertion_amended (ids : List String) (conns : List Conn) (c : Conn)
    (hc : c ∈ conns) (hs : c.source ∈ ids) (ht : c.target ∈ ids) :
    (c.target, resolveWeight c) ∈ buildGraph ids conns c.source ∧
      (c.source, resolveWeight c) ∈ buildGraph ids conns c.target := by
  rw [buildGraph]
  exact buildGraph_insert_aux ids c hs ht conns (fun _ => []) hc

/-- Connection fixture with an in-range zero `weight` and a `similarity`. -/
def connW0 : Conn := { source := "A", target := "B", weight := some 0, similarity := some (7/10) }

/-- C6 counterexample to the claim as stated: the edge `connW0` carries
`weight = 0`, yet it is inserted with weight `0.7` (its `similarity`), because
the JS expression `connection.weight || connection.similarity || 0.5` treats
the falsy `0` as absent. -/
theorem c6_zero_weight_counterexample :
    buildGraph ["A", "B"] [connW0] "A" = [("B", 7/10)] ∧ (7/10 : ℚ) ≠ 0 := by
  constructor
  · norm_num [buildGraph, graphStep, connW0, resolveWeight, jsOrQ, updateFn, List.foldl]
  · norm_num

/-- C6 witness for the amended statement: the zero-weight edge is inserted in
both directions with its resolved weight. -/
theorem c6_edge_insertion_amended_witness :
    ("B", resolveWeight connW0) ∈ buildGraph ["A", "B"] [connW0] "A" ∧
      ("A", resolveWeight connW0) ∈ buildGraph ["A", "B"] [connW0] "B" :=
  c6_edge_insertion_amended ["A", "B"] [connW0] connW0
    (List.mem_singleton.mpr rfl) (by simp [connW0]) (by simp [connW0])

/-- Helper: from `undefined` the reconstruction loop can never reach `null`,
so it exhausts any fuel — the JS `while (current !== null)` spins forever. -/
theorem reconstruct_undef_none (prev : String → JVal) :
    ∀ (f : ℕ) (acc : List String), reconstructLoop prev f JVal.undef acc = none := by
  intro f
  induction f with
  | zero => intro acc; rfl
  | succ f ih =>
    intro acc
    simp only [reconstructLoop]
    exact ih acc

/-- Helper: starting reconstruction at an id whose `previous` entry is
`undefined` diverges. -/
theorem reconstruct_str_undef_none (prev : String → JVal) (i : String)
    (h : prev i = JVal.undef) (f : ℕ) (acc : List String) :
    reconstructLoop prev f (JVal.str i) acc = none := by
  cases f with
  | zero => rfl
  | succ f =>
    simp only [reconstructLoop, h]
    exact reconstruct_undef_none prev f (i :: acc)

/-- Helper: every neighbor inserted by `graphStep` is a catalog id. -/
theorem graphStep_targets (ids : List String) (g : String → List (String × ℚ)) (c : Conn)
    (hg : ∀ u x, x ∈ g u → x.1 ∈ ids) :
    ∀ u x, x ∈ graphStep ids g c u → x.1 ∈ ids := by
  intro u x hx
  unfold graphStep at hx
  split at hx
  case isTrue h =>
    simp only [updateFn] at hx
    by_cases h1 : u = c.target
    · rw [if_pos h1] at hx
      rcases List.mem_append.mp hx with hx | hx
      · by_cases h0 : c.target = c.source
        · rw [if_pos h0] at hx
          rcases List.mem_append.mp hx with hx | hx
          · exact hg _ _ hx
          · rw [List.mem_singleton.mp hx]
            exact h.2
        · rw [if_neg h0] at hx
          exact hg _ _ hx
      · rw [List.mem_singleton.mp hx]
        exact h.1
    · rw [if_neg h1] at hx
      by_cases h2 : u = c.source
      · rw [if_pos h2] at hx
        rcases List.mem_append.mp hx with hx | hx
        · exact hg _ _ hx
        · rw [List.mem_singleton.mp hx]
          exact h.2
      · rw [if_neg h2] at hx
        exact hg _ _ hx
  case isFalse h => exact hg _ _ hx

/-- Helper: every neighbor in the built graph is a catalog id, because
`graphStep` checks `graph.has` for both endpoints. -/
theorem buildGraph_targets (ids : List String) (conns : List Conn) :
    ∀ u x, x ∈ buildGraph ids conns u → x.1 ∈ ids := by
  have aux : ∀ (l : List Conn) (g : String → List (String × ℚ)),
      (∀ u x, x ∈ g u → x.1 ∈ ids) →
      ∀ u x, x ∈ l.foldl (graphStep ids) g u → x.1 ∈ ids := by
    intro l
    induction l with
    | nil => intro g hg; exact hg
    | cons c rest ih => intro g hg; exact ih _ (graphStep_targets ids g c hg)
  exact aux conns (fun _ => []) (fun u x hx => absurd hx (List.not_mem_nil x))

/-- Helper: relaxing one neighbor other than `z` leaves `previous.get(z)`
unchanged. -/
theorem relaxStep_prev (u z : String) (st : DState) (p : String × ℚ) (hz : p.1 ≠ z) :
    (relaxStep u st p).prev z = st.prev z := by
  unfold relaxStep
  split
  · rfl
  · split
    · rfl
    · dsimp only
      split
      · rfl
      · split <;> split <;>
          first
            | rfl
            | (simp only [updateFn]; rw [if_neg (Ne.symm hz)])

/-- Helper: relaxing all neighbors of `u` leaves `previous.get(z)` unchanged
as long as no neighbor is `z`. -/
theorem relaxAll_prev (u z : String) (nbrs : List (String × ℚ)) :
    (∀ p ∈ nbrs, p.1 ≠ z) → ∀ st : DState, (relaxAll u nbrs st).prev z = st.prev z := by
  induction nbrs with
  | nil => intro _ st; rfl
  | cons p rest ih =>
    intro hn st
    have h1 : relaxAll u (p :: rest) st = relaxAll u rest (relaxStep u st p) := rfl
    rw [h1, ih (fun q hq => hn q (List.mem_cons_of_mem p hq)) (relaxStep u st p),
      relaxStep_prev u z st p (hn p (List.mem_cons_self p rest))]

/-- Helper: the whole search loop never writes `previous.get(z)` when `z` is
not a neighbor in the graph — in particular for any id outside the catalog. -/
theorem dijkstraLoop_prev (ids : List String) (graph : String → List (String × ℚ))
    (endId z : String) (hg : ∀ u x, x ∈ graph u → x.1 ≠ z) :
    ∀ (f : ℕ) (st st' : DState),
      dijkstraLoop ids graph endId f st = some st' → st'.prev z = st.prev z := by
  intro f
  induction f with
  | zero => intro st st' h; cases h
  | succ f ih =>
    intro st st' h
    rw [dijkstraLoop] at h
    split at h
    · cases h
      rfl
    · rename_i u sd heq
      split at h
      · cases h
        rfl
      · split at h
        · cases h
          rfl
        · split at h
          · exact (ih _ _ h).trans rfl
          · refine (ih _ _ h).trans ?_
            exact relaxAll_prev u z (graph u) (fun p hp => hg u p hp) _

/-- C3 (code bug): with an end id absent from the catalog (here `"Z"` against
the one-track catalog `[A]`), `calculateShortestPath` never terminates: the
reconstruction loop `while (current !== null)` spins on
`previous.get("Z") === undefined`, so the run exhausts every fuel bound.
(The claim asserts termination on all inputs; the search loop itself does
stop, but the whole function does not.) -/
theorem c3_unknown_end_never_terminates :
    (∀ f1 f2 : ℕ, calcWithFuel f1 f2 [trackA] [] "A" "Z" = none) ∧
      calculateShortestPath [trackA] [] "A" "Z" = none := by
  have main : ∀ f1 f2 : ℕ, calcWithFuel f1 f2 [trackA] [] "A" "Z" = none := by
    intro f1 f2
    simp only [calcWithFuel]
    rcases hd : dijkstraLoop ([trackA].map tid) (buildGraph ([trackA].map tid) []) "Z" f1
        (initState ([trackA].map tid) "A") with _ | st
    · simp [hd]
    · have hg : ∀ u x, x ∈ buildGraph ([trackA].map tid) [] u → x.1 ≠ "Z" := by
        intro u x hx
        exact absurd hx (List.not_mem_nil x)
      have hz : st.prev "Z" = JVal.undef := by
        have h0 : (initState ([trackA].map tid) "A").prev "Z" = JVal.undef := by
          simp [initState, tid, trackA]
        rw [dijkstraLoop_prev ([trackA].map tid) (buildGraph ([trackA].map tid) []) "Z" "Z" hg
          f1 _ st hd, h0]
      simp [hd, reconstruct_str_undef_none st.prev "Z" hz f2 []]
  exact ⟨main, main _ _⟩

/-- C4 (code bug): a query with an unknown track id does not yield the
promised `None`/empty result.  `findPath("A","Z")` (with `"Z"` outside the
two-track catalog) never terminates — reconstruction spins on
`previous.get("Z") === undefined` — and `showSimilarTracks("Z")` leaves the
similarity context as the non-empty set `{"Z"}` containing the unknown
anchor itself. -/
theorem c4_unknown_id_behavior :
    (∀ f1 f2 : ℕ, calcWithFuel f1 f2 [trackA, trackB] connAB "A" "Z" = none) ∧
      showSimilarTracksContext connAB ["A", "B"] "Z" = ["Z"] := by
  constructor
  · intro f1 f2
    simp only [calcWithFuel]
    rcases hd : dijkstraLoop ([trackA, trackB].map tid)
        (buildGraph ([trackA, trackB].map tid) connAB) "Z" f1
        (initState ([trackA, trackB].map tid) "A") with _ | st
    · simp [hd]
    · have hg : ∀ u x, x ∈ buildGraph ([trackA, trackB].map tid) connAB u → x.1 ≠ "Z" := by
        intro u x hx heq
        have hmem := buildGraph_targets ([trackA, trackB].map tid) connAB u x hx
        rw [heq] at hmem
        simp [tid, trackA, trackB] at hmem
      have hz : st.prev "Z" = JVal.undef := by
        have h0 : (initState ([trackA, trackB].map tid) "A").prev "Z" = JVal.undef := by
          simp [initState, tid, trackA, trackB]
        rw [dijkstraLoop_prev ([trackA, trackB].map tid)
          (buildGraph ([trackA, trackB].map tid) connAB) "Z" "Z" hg f1 _ st hd, h0]
      simp [hd, reconstruct_str_undef_none st.prev "Z" hz f2 []]
  · simp [showSimilarTracksContext, connAB, List.foldl]

/-! ### Similarity and playlist claims -/

/-- Helper: the two squared-norm sums of the similarity loop are nonnegative. -/
theorem simSums_norms_nonneg (v1 : List ℝ) :
    ∀ v2 : List ℝ, 0 ≤ (simSums v1 v2).2.1 ∧ 0 ≤ (simSums v1 v2).2.2 := by
  induction v1 with
  | nil => intro v2; simp [simSums]
  | cons a tl ih =>
    intro v2
    cases v2 with
    | nil => simp [simSums]
    | cons b tl2 =>
      rcases ih tl2 with ⟨h1, h2⟩
      constructor
      · simpa [simSums] using add_nonneg h1 (mul_self_nonneg a)
      · simpa [simSums] using add_nonneg h2 (mul_self_nonneg b)

/-- Helper: Cauchy–Schwarz for the similarity loop sums. -/
theorem simSums_sq_le (v1 : List ℝ) :
    ∀ v2 : List ℝ, (simSums v1 v2).1 ^ 2 ≤ (simSums v1 v2).2.1 * (simSums v1 v2).2.2 := by
  induction v1 with
  | nil => intro v2; simp [simSums]
  | cons a tl ih =>
    intro v2
    cases v2 with
    | nil => simp [simSums]
    | cons b tl2 =>
      have h := ih tl2
      rcases simSums_norms_nonneg tl tl2 with ⟨hN1, hN2⟩
      simp only [simSums]
      by_cases hz : (simSums tl tl2).2.2 = 0
      · have hD : (simSums tl tl2).1 = 0 := by nlinarith [sq_nonneg (simSums tl tl2).1]
        rw [hz, hD]
        nlinarith [mul_nonneg hN1 (mul_self_nonneg b), sq_nonneg (a * b)]
      · have hN2p : 0 < (simSums tl tl2).2.2 := hN2.lt_of_ne (Ne.symm hz)
        nlinarith [sq_nonneg (a * (simSums tl tl2).2.2 - b * (simSums tl tl2).1),
          mul_nonneg hN2 (sub_nonneg.mpr h),
          mul_nonneg (mul_self_nonneg b) (sub_nonneg.mpr h), hN2p]

/-- Helper: the cosine similarity always lies in `[-1, 1]`. -/
theorem calculateVectorSimilarity_bounds (v1 v2 : List ℝ) :
    -1 ≤ calculateVectorSimilarity v1 v2 ∧ calculateVectorSimilarity v1 v2 ≤ 1 := by
  unfold calculateVectorSimilarity
  split
  · norm_num
  · dsimp only
    split
    · norm_num
    · rename_i hlen hnz
      push_neg at hnz
      rcases simSums_norms_nonneg v1 v2 with ⟨hN1, hN2⟩
      have hN1p : 0 < (simSums v1 v2).2.1 := hN1.lt_of_ne (Ne.symm hnz.1)
      have hN2p : 0 < (simSums v1 v2).2.2 := hN2.lt_of_ne (Ne.symm hnz.2)
      have hs : 0 < Real.sqrt (simSums v1 v2).2.1 * Real.sqrt (simSums v1 v2).2.2 :=
        mul_pos (Real.sqrt_pos.mpr hN1p) (Real.sqrt_pos.mpr hN2p)
      have habs : |(simSums v1 v2).1| ≤
          Real.sqrt (simSums v1 v2).2.1 * Real.sqrt (simSums v1 v2).2.2 := by
        rw [← Real.sqrt_mul hN1]
        calc |(simSums v1 v2).1| = Real.sqrt ((simSums v1 v2).1 ^ 2) :=
              (Real.sqrt_sq_eq_abs _).symm
          _ ≤ _ := Real.sqrt_le_sqrt (simSums_sq_le v1 v2)
      have habs' : |(simSums v1 v2).1 /
          (Real.sqrt (simSums v1 v2).2.1 * Real.sqrt (simSums v1 v2).2.2)| ≤ 1 := by
        rw [abs_div, abs_of_pos hs]
        exact (div_le_one hs).mpr habs
      exact abs_le.mp habs'

/-- Helper: the emotional factor always lies in `[0, 1]`. -/
theorem calculateEmotionalSimilarity_bounds (c1 c2 : EmotionalCoords) :
    0 ≤ calculateEmotionalSimilarity c1 c2 ∧ calculateEmotionalSimilarity c1 c2 ≤ 1 := by
  unfold calculateEmotionalSimilarity
  refine ⟨le_max_left 0 _, max_le (by norm_num) ?_⟩
  linarith [Real.sqrt_nonneg ((c1.valence - c2.valence) ^ 2 + (c1.energy - c2.energy) ^ 2 +
    (c1.complexity - c2.complexity) ^ 2 + (c1.tension - c2.tension) ^ 2)]

/-- C1 (amended): for arbitrary numeric inputs `calculateTrackSimilarity`
lies in `[-1, 1]` (not `[0, 1]`: the cosine factors can be negative). -/
theorem c1_similarity_range_amended (t1 t2 : Track) :
    -1 ≤ calculateTrackSimilarity t1 t2 ∧ calculateTrackSimilarity t1 t2 ≤ 1 := by
  unfold calculateTrackSimilarity
  rcases h1 : t1.coordinates with _ | c1
  all_goals rcases h2 : t2.coordinates with _ | c2
  all_goals rcases h3 : t1.sonic_dna with _ | d1
  all_goals rcases h4 : t2.sonic_dna with _ | d2
  all_goals dsimp only
  all_goals split
  all_goals
    first
      | (norm_num; done)
      | (rename_i hcond; norm_num at hcond; done)
      | (guard_hyp c1 : EmotionalCoords
         guard_hyp c2 : EmotionalCoords
         guard_hyp d1 : SonicDNA
         guard_hyp d2 : SonicDNA
         rcases calculateEmotionalSimilarity_bounds c1 c2 with ⟨he1, he2⟩
         rcases calculateVectorSimilarity_bounds (d1.harmonic_genes.getD [])
            (d2.harmonic_genes.getD []) with ⟨hh1, hh2⟩
         rcases calculateVectorSimilarity_bounds (d1.rhythmic_genes.getD [])
            (d2.rhythmic_genes.getD []) with ⟨hr1, hr2⟩
         constructor
         · rw [le_div_iff₀ (by norm_num)]
           nlinarith
         · rw [div_le_one (by norm_num)]
           nlinarith)
      | (guard_hyp d1 : SonicDNA
         guard_hyp d2 : SonicDNA
         rcases calculateVectorSimilarity_bounds (d1.harmonic_genes.getD [])
            (d2.harmonic_genes.getD []) with ⟨hh1, hh2⟩
         rcases calculateVectorSimilarity_bounds (d1.rhythmic_genes.getD [])
            (d2.rhythmic_genes.getD []) with ⟨hr1, hr2⟩
         constructor
         · rw [le_div_iff₀ (by norm_num)]
           nlinarith
         · rw [div_le_one (by norm_num)]
           nlinarith)
      | (guard_hyp c1 : EmotionalCoords
         guard_hyp c2 : EmotionalCoords
         rcases calculateEmotionalSimilarity_bounds c1 c2 with ⟨he1, he2⟩
         constructor
         · rw [le_div_iff₀ (by norm_num)]
           nlinarith
         · rw [div_le_one (by norm_num)]
           nlinarith)

/-- C1 counterexample to the claim as stated: with opposite unit gene vectors
the similarity is `-1`, outside `[0, 1]`. -/
theorem c1_similarity_not_in_unit_interval :
    calculateTrackSimilarity tNegL tNegR = -1 ∧ calculateTrackSimilarity tNegL tNegR < 0 := by
  have hv : calculateVectorSimilarity [(1 : ℝ)] [(-1 : ℝ)] = -1 := by
    unfold calculateVectorSimilarity
    rw [if_neg (by simp)]
    norm_num [simSums, Real.sqrt_one]
  have hmain : calculateTrackSimilarity tNegL tNegR = -1 := by
    unfold calculateTrackSimilarity
    simp only [tNegL, tNegR, Option.getD_some]
    rw [hv]
    norm_num
  exact ⟨hmain, by rw [hmain]; norm_num⟩

/-- Helper: on a self-pair the three loop sums coincide with the squared
norm. -/
theorem simSums_self (v : List ℝ) :
    (simSums v v).1 = normSq v ∧ (simSums v v).2.2 = normSq v := by
  unfold normSq
  induction v with
  | nil => exact ⟨rfl, rfl⟩
  | cons a tl ih =>
    simp only [simSums]
    exact ⟨by rw [ih.1], by rw [ih.2]⟩

/-- Helper: squared norms are nonnegative. -/
theorem normSq_nonneg (v : List ℝ) : 0 ≤ normSq v :=
  (simSums_norms_nonneg v v).1

/-- Helper: cosine self-similarity is `1` for a vector of nonzero norm. -/
theorem calculateVectorSimilarity_self (v : List ℝ) (hv : normSq v ≠ 0) :
    calculateVectorSimilarity v v = 1 := by
  rcases simSums_self v with ⟨hd, h22⟩
  have h21 : (simSums v v).2.1 = normSq v := rfl
  unfold calculateVectorSimilarity
  rw [if_neg (by simp)]
  dsimp only
  rw [if_neg (by rw [h21, h22]; exact fun hc => hv (hc.elim id id))]
  rw [hd, h21, h22, Real.mul_self_sqrt (normSq_nonneg v)]
  exact div_self hv

/-- Helper: emotional self-similarity is `1`. -/
theorem calculateEmotionalSimilarity_self (c : EmotionalCoords) :
    calculateEmotionalSimilarity c c = 1 := by
  unfold calculateEmotionalSimilarity
  simp

/-- C8 (amended): self-similarity is `1` when the track carries emotional
coordinates and gene vectors of nonzero norm.  (For zero-norm gene vectors
the cosine factor degenerates to `0` and the result drops to `0.4`.) -/
theorem c8_self_similarity_amended (t : Track) (c : EmotionalCoords) (d : SonicDNA)
    (hc : t.coordinates = some c) (hd : t.sonic_dna = some d)
    (hh : normSq (d.harmonic_genes.getD []) ≠ 0)
    (hr : normSq (d.rhythmic_genes.getD []) ≠ 0) :
    calculateTrackSimilarity t t = 1 := by
  unfold calculateTrackSimilarity
  rw [hc, hd]
  dsimp only
  rw [calculateEmotionalSimilarity_self c, calculateVectorSimilarity_self _ hh,
    calculateVectorSimilarity_self _ hr]
  norm_num

/-- C8 witness: a track with coordinates and unit gene vectors has
self-similarity exactly `1`. -/
theorem c8_self_similarity_amended_witness : calculateTrackSimilarity tOne tOne = 1 :=
  c8_self_similarity_amended tOne ⟨0, 0, 0, 0⟩
    { harmonic_genes := some [1], rhythmic_genes := some [1] } rfl rfl
    (by norm_num [normSq, simSums]) (by norm_num [normSq, simSums])

/-- C8 counterexample to the claim as stated: with zero gene vectors (still
"carrying" harmonic and rhythmic vectors) the self-similarity is `0.4`,
not `1`. -/
theorem c8_self_similarity_counterexample :
    calculateTrackSimilarity tZero tZero = 0.4 ∧ (0.4 : ℝ) ≠ 1 := by
  have hv : calculateVectorSimilarity [(0 : ℝ)] [(0 : ℝ)] = 0 := by
    unfold calculateVectorSimilarity
    rw [if_neg (by simp)]
    norm_num [simSums]
  constructor
  · unfold calculateTrackSimilarity
    simp only [tZero, Option.getD_some]
    rw [hv, calculateEmotionalSimilarity_self ⟨0, 0, 0, 0⟩]
    norm_num
  · norm_num

/-- C10: when a track is already selected (`currentTrackIndex ≠ -1`), at
least one path track was newly appended, and `path[0]` sits in the updated
playlist at an index different from the current one, `addPathToPlaylist`
moves `currentTrackIndex` to that index and starts playback there
(lines 312–324). -/
theorem c10_playlist_switch (tracks : List Track) (path : List String) (st : PlayerState)
    (h1 : st.currentTrackIndex ≠ -1)
    (h2 : 0 < (addPathTracks tracks path st.selectedTracks).2)
    (h3 : firstPathIndex path (addPathTracks tracks path st.selectedTracks).1 ≠ -1)
    (h4 : firstPathIndex path (addPathTracks tracks path st.selectedTracks).1 ≠
      st.currentTrackIndex) :
    (addPathToPlaylist tracks path st).1.currentTrackIndex =
        firstPathIndex path (addPathTracks tracks path st.selectedTracks).1 ∧
      (addPathToPlaylist tracks path st).2 =
        some (firstPathIndex path (addPathTracks tracks path st.selectedTracks).1) := by
  unfold addPathToPlaylist
  dsimp only
  rw [if_neg (fun hc => h1 hc.1), if_pos h2, if_pos ⟨h3, h4⟩]
  exact ⟨rfl, rfl⟩

/-- C10 witness: with playlist `[A]`, current index `0`, and path `["B"]`,
the call appends `B` and switches playback to index `1`. -/
theorem c10_playlist_switch_witness :
    (addPathToPlaylist [trackA, trackB] ["B"] ⟨[trackA], 0⟩).1.currentTrackIndex =
        firstPathIndex ["B"] (addPathTracks [trackA, trackB] ["B"] [trackA]).1 ∧
      (addPathToPlaylist [trackA, trackB] ["B"] ⟨[trackA], 0⟩).2 =
        some (firstPathIndex ["B"] (addPathTracks [trackA, trackB] ["B"] [trackA]).1) :=
  c10_playlist_switch [trackA, trackB] ["B"] ⟨[trackA], 0⟩
    (by decide) (by decide) (by decide) (by decide)

/-! ### Flow path claims -/

/-- Helper: the `j`-th emitted point of a segment, fully expanded. -/
theorem segPoints_get (i : ℕ) (p0 p1 : Vec3) (j : ℕ) (hj : j < segments + 1) :
    (segPoints i p0 p1)[j]? = some
      { position :=
          { x := p0.x + (p1.x - p0.x) * ((j : ℝ) / (segments : ℝ))
            y := p0.y + (p1.y - p0.y) * ((j : ℝ) / (segments : ℝ)) +
              Real.sin (((j : ℝ) / (segments : ℝ)) * Real.pi) * 1.0
            z := p0.z + (p1.z - p0.z) * ((j : ℝ) / (segments : ℝ)) }
        trackIndex := (i : ℝ) + (j : ℝ) / (segments : ℝ)
        flow := (j : ℝ) / (segments : ℝ)
        segment := i } := by
  simp only [segPoints]
  rw [List.getElem?_map, List.getElem?_range hj]
  rfl

/-- C9 (amended): every segment of the flow path unconditionally consists of
`segments + 1 = 21` points whose first point is exactly `P0` and last exactly
`P1` (the lift `sin(t·π)` vanishes at both ends), and whose middle point has
vertical component `(P0.y + P1.y)/2 + 1`; that middle value exceeds both
endpoints' `y` whenever the endpoints' `y` differ by less than `2` (in
particular when they are equal, as in the specification's example) — but not
in general. -/
theorem c9_flowpath_amended (i : ℕ) (p0 p1 : Vec3) :
    (segPoints i p0 p1).length = 21 ∧
      (((segPoints i p0 p1)[0]?).map fun q => q.position) = some p0 ∧
      (((segPoints i p0 p1)[20]?).map fun q => q.position) = some p1 ∧
      (((segPoints i p0 p1)[10]?).map fun q => q.position.y) =
        some ((p0.y + p1.y) / 2 + 1) ∧
      (|p1.y - p0.y| < 2 →
        p0.y < (p0.y + p1.y) / 2 + 1 ∧ p1.y < (p0.y + p1.y) / 2 + 1) := by
  obtain ⟨x0, y0, z0⟩ := p0
  obtain ⟨x1, y1, z1⟩ := p1
  dsimp only
  refine ⟨by simp [segPoints, segments], ?_, ?_, ?_, fun h => ?_⟩
  · rw [segPoints_get i ⟨x0, y0, z0⟩ ⟨x1, y1, z1⟩ 0 (by norm_num [segments])]
    simp only [Option.map_some', Option.some.injEq, Vec3.mk.injEq, segments]
    push_cast
    norm_num
  · rw [segPoints_get i ⟨x0, y0, z0⟩ ⟨x1, y1, z1⟩ 20 (by norm_num [segments])]
    simp only [Option.map_some', Option.some.injEq, Vec3.mk.injEq, segments]
    push_cast
    rw [show ((20 : ℝ) / 20) = 1 by norm_num, one_mul, Real.sin_pi]
    refine ⟨by ring, by ring, by ring⟩
  · rw [segPoints_get i ⟨x0, y0, z0⟩ ⟨x1, y1, z1⟩ 10 (by norm_num [segments])]
    simp only [Option.map_some', Option.some.injEq, segments]
    push_cast
    rw [show ((10 : ℝ) / 20) * Real.pi = Real.pi / 2 by ring, Real.sin_pi_div_two]
    ring_nf
  · obtain ⟨hlo, hhi⟩ := abs_lt.mp h
    exact ⟨by linarith, by linarith⟩

/-- C9 witness: on the specification's example segment from `(0,0,0)` to
`(10,0,0)` (equal endpoint heights), all five conclusions hold, the
conditional middle-point clause discharged concretely. -/
theorem c9_flowpath_amended_witness :
    (segPoints 0 ⟨0, 0, 0⟩ ⟨10, 0, 0⟩).length = 21 ∧
      (((segPoints 0 ⟨0, 0, 0⟩ ⟨10, 0, 0⟩)[0]?).map fun q => q.position) = some ⟨0, 0, 0⟩ ∧
      (((segPoints 0 ⟨0, 0, 0⟩ ⟨10, 0, 0⟩)[20]?).map fun q => q.position) = some ⟨10, 0, 0⟩ ∧
      (((segPoints 0 ⟨0, 0, 0⟩ ⟨10, 0, 0⟩)[10]?).map fun q => q.position.y) =
        some (((0 : ℝ) + 0) / 2 + 1) ∧
      (0 : ℝ) < ((0 : ℝ) + 0) / 2 + 1 ∧ (0 : ℝ) < ((0 : ℝ) + 0) / 2 + 1 := by
  obtain ⟨h1, h2, h3, h4, h5⟩ := c9_flowpath_amended 0 ⟨0, 0, 0⟩ ⟨10, 0, 0⟩
  exact ⟨h1, h2, h3, h4, h5 (by norm_num)⟩

/-- C9 counterexample to the claim as stated: for the consecutive positions
`(0,0,0)` and `(0,10,0)` the middle point of the segment has `y = 6`, which
is not strictly greater than the second endpoint's `y = 10`. -/
theorem c9_flowpath_counterexample :
    (((createGravitationalPath [⟨⟨0, 0, 0⟩⟩, ⟨⟨0, 10, 0⟩⟩])[10]?).map fun q => q.position.y) =
        some 6 ∧ ¬ ((6 : ℝ) > 10) := by
  constructor
  · have h1 : createGravitationalPath [⟨⟨0, 0, 0⟩⟩, ⟨⟨0, 10, 0⟩⟩] =
        segPoints 0 ⟨0, 0, 0⟩ ⟨0, 10, 0⟩ := by
      simp [createGravitationalPath, segsFrom]
    rw [h1, segPoints_get 0 ⟨0, 0, 0⟩ ⟨0, 10, 0⟩ 10 (by norm_num [segments])]
    simp only [Option.map_some', Option.some.injEq, segments]
    push_cast
    rw [show ((10 : ℝ) / 20) * Real.pi = Real.pi / 2 by ring, Real.sin_pi_div_two]
    norm_num
  · norm_num

end MusicViz
